import Mathlib

/-!
Verification development for the Chat Store of the MoviePilot-Plugins
repository (plugins.v2/chat_center and plugins.v2/chatroom_enhanced).

The two plugin classes keep an ordered, size-bounded list of chat messages,
a presence map from usernames to last-active timestamps, and persist the
message list to a JSON file.  We shallowly embed the state and the API
operations; the clock (`time.time()`, `datetime.now()`) and the success of
a file write are passed in as explicit parameters, and the backing file is
modelled by the parsed value it holds (missing / unparseable / a saved
message list).
-/

/-- A chat message as built by `send_message`:
`{"id": int(time.time()*1000), "username": ..., "content": ...,
  "time": strftime(...), "type": ...}`. -/
structure Message where
  id : Int
  username : String
  content : String
  time : String
  type : String
deriving DecidableEq, Repr

/-- The backing JSON file (`chat_center_data.json` resp.
`chatroom_enhanced_data.json`): it may be absent, hold unparseable
contents, or hold a saved message list. -/
inductive FileState where
  | missing : FileState
  | corrupt : FileState
  | saved : List Message → FileState
deriving DecidableEq, Repr

/-- The `data` field of a response envelope: a message list
(`/messages`), a single created message (`/send`), or a list of
usernames (`/online`). -/
inductive RespData where
  | msgs : List Message → RespData
  | msg : Message → RespData
  | users : List String → RespData
deriving DecidableEq, Repr

/-- The response envelope `{"code": ..., "message": ..., "data": ...}`;
`data` is absent (`none`) on validation failures and on `/heartbeat`
and `/clear`. -/
structure ApiResponse where
  code : Nat
  message : String
  data : Option RespData := none
deriving DecidableEq, Repr

/-- The mutable state of one plugin instance: `_messages`,
`_online_users` (a Python dict, i.e. an insertion-ordered association
list with unique keys), the backing file, `_max_messages` and
`_online_timeout`. -/
structure ChatState where
  messages : List Message
  online_users : List (String × Int)
  chat_file : FileState
  max_messages : Int
  online_timeout : Int
deriving DecidableEq, Repr

/-- Python dict assignment `d[k] = v` on an insertion-ordered association
list: overwrite in place if the key is present, else append at the end. -/
def dictInsert (us : List (String × Int)) (u : String) (t : Int) :
    List (String × Int) :=
  if us.any (fun p => p.1 == u) then
    us.map (fun p => if p.1 == u then (u, t) else p)
  else
    us ++ [(u, t)]

/-- Python slice `l[start:]` for an arbitrary integer `start`:
a negative start counts from the end, clamped at the front. -/
def pySliceFrom {α : Type} (l : List α) (start : Int) : List α :=
  if start < 0 then l.drop (Int.toNat ((l.length : Int) + start))
  else l.drop start.toNat

namespace ChatCenter

/-- `_update_user_online`: no-op on an empty username, otherwise sets the
presence timestamp of `username` to now. -/
def update_user_online (us : List (String × Int)) (username : String)
    (now : Int) : List (String × Int) :=
  if username = "" then us else dictInsert us username now

/-- `_clean_offline_users`: collect the usernames whose age exceeds
`timeout`, then pop each collected username from the dict. -/
def clean_offline_users (us : List (String × Int)) (now timeout : Int) :
    List (String × Int) :=
  let offline_users := (us.filter (fun p => decide (now - p.2 > timeout))).map Prod.fst
  us.filter (fun p => !(offline_users.contains p.1))

/-- `_load_messages`: empty list if the file is absent or fails to parse,
else the parsed contents. -/
def load_messages : FileState → List Message
  | .missing => []
  | .corrupt => []
  | .saved l => l

/-- `_save_messages`: write the full list to the file; on an I/O failure
(`ok = false`) the error is only logged and the file keeps its previous
contents. -/
def save_messages (msgs : List Message) (f : FileState) (ok : Bool) :
    FileState :=
  if ok then .saved msgs else f

/-- `get_messages` (GET `/messages`): return the current message list. -/
def get_messages (s : ChatState) : ApiResponse :=
  { code := 0, message := "操作成功", data := some (.msgs s.messages) }

/-- `send_message` (POST `/send`): validate, touch presence, append the
new message, trim to the last `_max_messages` entries via the Python
slice `l[-max:]`, and save.  `nowMs` is `int(time.time()*1000)`, `nowS`
is `time.time()`, `timeStr` is the formatted `datetime.now()`, and
`saveOk` tells whether the file write succeeds. -/
def send_message (s : ChatState) (username content : String)
    (nowMs nowS : Int) (timeStr : String) (saveOk : Bool)
    (ty : String := "text") : ApiResponse × ChatState :=
  if username = "" ∨ content = "" then
    ({ code := 1, message := "用户名和消息内容不能为空！" }, s)
  else
    let online1 := update_user_online s.online_users username nowS
    let new_message : Message :=
      { id := nowMs, username := username, content := content,
        time := timeStr, type := ty }
    let msgs1 := s.messages ++ [new_message]
    let msgs2 := if (msgs1.length : Int) > s.max_messages then
        pySliceFrom msgs1 (-s.max_messages)
      else msgs1
    ({ code := 0, message := "发送成功", data := some (.msg new_message) },
     { s with
        messages := msgs2
        online_users := online1
        chat_file := save_messages msgs2 s.chat_file saveOk })

/-- `get_online_users` (GET `/online`): evict expired presence entries,
then return the remaining usernames. -/
def get_online_users (s : ChatState) (now : Int) : ApiResponse × ChatState :=
  let online1 := clean_offline_users s.online_users now s.online_timeout
  ({ code := 0, message := "操作成功", data := some (.users (online1.map Prod.fst)) },
   { s with online_users := online1 })

/-- `user_heartbeat` (POST `/heartbeat`): validate, then touch presence. -/
def user_heartbeat (s : ChatState) (username : String) (now : Int) :
    ApiResponse × ChatState :=
  if username = "" then
    ({ code := 1, message := "用户名不能为空！" }, s)
  else
    ({ code := 0, message := "操作成功" },
     { s with online_users := update_user_online s.online_users username now })

/-- `clear_messages` (POST `/clear`): empty the list and save it. -/
def clear_messages (s : ChatState) (saveOk : Bool) : ApiResponse × ChatState :=
  ({ code := 0, message := "清空成功" },
   { s with messages := [], chat_file := save_messages [] s.chat_file saveOk })

/-- `init_plugin`: apply the configuration (a config value is only taken
when truthy, so `0` and an absent key both keep the default; defaults are
`_max_messages = 100` and `_online_timeout = 300`) and load the message
list from the backing file.  Presence starts empty. -/
def init_plugin (cfg_max cfg_timeout : Option Int) (f : FileState) :
    ChatState :=
  let m : Int := match cfg_max with
    | some v => if v = 0 then 100 else v
    | none => 100
  let t : Int := match cfg_timeout with
    | some v => if v = 0 then 300 else v
    | none => 300
  { messages := load_messages f
    online_users := []
    chat_file := f
    max_messages := m
    online_timeout := t }

end ChatCenter

namespace ChatroomEnhanced

/-- `_update_user_online` of `chatroom_enhanced`. -/
def update_user_online (us : List (String × Int)) (username : String)
    (now : Int) : List (String × Int) :=
  if username = "" then us else dictInsert us username now

/-- `_clean_offline_users` of `chatroom_enhanced`. -/
def clean_offline_users (us : List (String × Int)) (now timeout : Int) :
    List (String × Int) :=
  let offline_users := (us.filter (fun p => decide (now - p.2 > timeout))).map Prod.fst
  us.filter (fun p => !(offline_users.contains p.1))

/-- `_load_messages` of `chatroom_enhanced`: the extra outer
`try/except` also falls back to the empty list. -/
def load_messages : FileState → List Message
  | .missing => []
  | .corrupt => []
  | .saved l => l

/-- `_save_messages` of `chatroom_enhanced`. -/
def save_messages (msgs : List Message) (f : FileState) (ok : Bool) :
    FileState :=
  if ok then .saved msgs else f

/-- `get_messages` of `chatroom_enhanced`. -/
def get_messages (s : ChatState) : ApiResponse :=
  { code := 0, message := "操作成功", data := some (.msgs s.messages) }

/-- `send_message` of `chatroom_enhanced`. -/
def send_message (s : ChatState) (username content : String)
    (nowMs nowS : Int) (timeStr : String) (saveOk : Bool)
    (ty : String := "text") : ApiResponse × ChatState :=
  if username = "" ∨ content = "" then
    ({ code := 1, message := "用户名和消息内容不能为空！" }, s)
  else
    let online1 := update_user_online s.online_users username nowS
    let new_message : Message :=
      { id := nowMs, username := username, content := content,
        time := timeStr, type := ty }
    let msgs1 := s.messages ++ [new_message]
    let msgs2 := if (msgs1.length : Int) > s.max_messages then
        pySliceFrom msgs1 (-s.max_messages)
      else msgs1
    ({ code := 0, message := "发送成功", data := some (.msg new_message) },
     { s with
        messages := msgs2
        online_users := online1
        chat_file := save_messages msgs2 s.chat_file saveOk })

/-- `get_online_users` of `chatroom_enhanced`. -/
def get_online_users (s : ChatState) (now : Int) : ApiResponse × ChatState :=
  let online1 := clean_offline_users s.online_users now s.online_timeout
  ({ code := 0, message := "操作成功", data := some (.users (online1.map Prod.fst)) },
   { s with online_users := online1 })

/-- `user_heartbeat` of `chatroom_enhanced`. -/
def user_heartbeat (s : ChatState) (username : String) (now : Int) :
    ApiResponse × ChatState :=
  if username = "" then
    ({ code := 1, message := "用户名不能为空！" }, s)
  else
    ({ code := 0, message := "操作成功" },
     { s with online_users := update_user_online s.online_users username now })

/-- `clear_messages` of `chatroom_enhanced`. -/
def clear_messages (s : ChatState) (saveOk : Bool) : ApiResponse × ChatState :=
  ({ code := 0, message := "清空成功" },
   { s with messages := [], chat_file := save_messages [] s.chat_file saveOk })

/-- `init_plugin` of `chatroom_enhanced`: same configuration handling
and load as `chat_center` (the added logging and `try/except` wrappers
do not change the state that results). -/
def init_plugin (cfg_max cfg_timeout : Option Int) (f : FileState) :
    ChatState :=
  let m : Int := match cfg_max with
    | some v => if v = 0 then 100 else v
    | none => 100
  let t : Int := match cfg_timeout with
    | some v => if v = 0 then 300 else v
    | none => 300
  { messages := load_messages f
    online_users := []
    chat_file := f
    max_messages := m
    online_timeout := t }

end ChatroomEnhanced

/-- The inputs of one `send_message` call: the caller-supplied fields and
the environment (clock samples, write success) of that call. -/
structure PostInput where
  username : String
  content : String
  ty : String
  nowMs : Int
  nowS : Int
  timeStr : String
  saveOk : Bool
deriving DecidableEq, Repr

/-- The message that a successful `send_message` call with these inputs
constructs. -/
def mkMessage (i : PostInput) : Message :=
  { id := i.nowMs, username := i.username, content := i.content,
    time := i.timeStr, type := i.ty }

/-- The state after one `send_message` call. -/
def post_step (s : ChatState) (i : PostInput) : ChatState :=
  (ChatCenter.send_message s i.username i.content i.nowMs i.nowS
    i.timeStr i.saveOk i.ty).2

/-- The state after a sequence of `send_message` calls. -/
def run_posts (s : ChatState) (l : List PostInput) : ChatState :=
  l.foldl post_step s

/-! ### Helper lemmas about the presence dict -/

theorem dictInsert_mem_self (us : List (String × Int)) (u : String) (t : Int) :
    (u, t) ∈ dictInsert us u t := by
  unfold dictInsert
  split
  · rename_i h
    rw [List.any_eq_true] at h
    obtain ⟨p, hp, hpu⟩ := h
    refine List.mem_map.mpr ⟨p, hp, ?_⟩
    simp [hpu]
  · exact List.mem_append_right _ (List.mem_singleton_self _)

theorem dictInsert_key_eq (us : List (String × Int)) (u : String) (t : Int) :
    ∀ p ∈ dictInsert us u t, p.1 = u → p = (u, t) := by
  intro p hp hpu
  unfold dictInsert at hp
  split at hp
  · obtain ⟨q, hq, hqe⟩ := List.mem_map.mp hp
    by_cases hqu : q.1 = u
    · simpa [hqu] using hqe.symm
    · simp [hqu] at hqe
      exact absurd (hqe ▸ hpu) hqu
  · rename_i hany
    rw [List.mem_append] at hp
    rcases hp with h | h
    · exact absurd (List.any_eq_true.mpr ⟨p, h, by simp [hpu]⟩) hany
    · simpa using h

theorem map_overwrite_filter_ne (us : List (String × Int)) (u v : String)
    (t : Int) (hv : v ≠ u) :
    (us.map (fun p => if p.1 == u then (u, t) else p)).filter
        (fun p => p.1 == v)
      = us.filter (fun p => p.1 == v) := by
  induction us with
  | nil => rfl
  | cons q us ih =>
    simp only [List.map_cons]
    by_cases hqu : q.1 = u
    · have hfq : (if (q.1 == u) = true then (u, t) else q) = (u, t) := by
        simp [hqu]
      have h1 : ((u, t).1 == v) = false :=
        beq_eq_false_iff_ne.mpr (Ne.symm hv)
      have h2 : (q.1 == v) = false := by
        rw [hqu]; exact beq_eq_false_iff_ne.mpr (Ne.symm hv)
      rw [List.filter_cons, List.filter_cons, hfq, h1, h2]
      simpa using ih
    · have hfq : (if (q.1 == u) = true then (u, t) else q) = q := by
        simp [hqu]
      rw [List.filter_cons, List.filter_cons, hfq, ih]

theorem dictInsert_filter_ne (us : List (String × Int)) (u v : String)
    (t : Int) (hv : v ≠ u) :
    (dictInsert us u t).filter (fun p => p.1 == v)
      = us.filter (fun p => p.1 == v) := by
  unfold dictInsert
  split
  · exact map_overwrite_filter_ne us u v t hv
  · rw [List.filter_append]
    have : ([(u, t)].filter (fun p => p.1 == v)) = [] := by
      simp [Ne.symm hv]
    rw [this, List.append_nil]

theorem dictInsert_keys_nodup (us : List (String × Int)) (u : String)
    (t : Int) (h : (us.map Prod.fst).Nodup) :
    ((dictInsert us u t).map Prod.fst).Nodup := by
  unfold dictInsert
  split
  · have heq : (us.map (fun p => if p.1 == u then (u, t) else p)).map Prod.fst
        = us.map Prod.fst := by
      rw [List.map_map]
      apply List.map_congr_left
      intro p _
      by_cases hpu : p.1 = u
      · simp [hpu]
      · simp [hpu]
    rw [heq]; exact h
  · rename_i hany
    rw [List.map_append]
    have hu : u ∉ us.map Prod.fst := by
      intro hmem
      obtain ⟨p, hp, hpe⟩ := List.mem_map.mp hmem
      exact hany (List.any_eq_true.mpr ⟨p, hp, by simp [hpe]⟩)
    simp [List.nodup_append, h, hu]

/-! ### Helper lemmas about eviction and trimming -/

theorem clean_eq_filter (us : List (String × Int)) (now timeout : Int)
    (h : (us.map Prod.fst).Nodup) :
    ChatCenter.clean_offline_users us now timeout
      = us.filter (fun p => decide (now - p.2 ≤ timeout)) := by
  unfold ChatCenter.clean_offline_users
  apply List.filter_congr
  intro p hp
  have hiff : ((((us.filter (fun p => decide (now - p.2 > timeout))).map
      Prod.fst).contains p.1) = true) ↔ now - p.2 > timeout := by
    rw [List.contains_iff_exists_mem_beq]
    constructor
    · rintro ⟨b, hb, hbeq⟩
      obtain ⟨q, hq, hqe⟩ := List.mem_map.mp hb
      have hqus : q ∈ us := (List.mem_filter.mp hq).1
      have hqexp : now - q.2 > timeout := by
        simpa using (List.mem_filter.mp hq).2
      have hqp : q = p :=
        List.inj_on_of_nodup_map h hqus hp
          (hqe.trans (beq_iff_eq.mp hbeq).symm)
      exact hqp ▸ hqexp
    · intro hexp
      exact ⟨p.1,
        List.mem_map.mpr ⟨p, List.mem_filter.mpr ⟨hp, by simpa using hexp⟩, rfl⟩,
        by simp⟩
  by_cases hexp : now - p.2 > timeout
  · rw [hiff.mpr hexp]
    simp only [Bool.not_true]
    exact (decide_eq_false (not_le.mpr hexp)).symm
  · rw [Bool.eq_false_iff.mpr (fun hc => hexp (hiff.mp hc))]
    simp only [Bool.not_false]
    exact (decide_eq_true (not_lt.mp hexp)).symm

theorem mem_clean_iff (us : List (String × Int)) (now timeout : Int)
    (h : (us.map Prod.fst).Nodup) (v : String) :
    v ∈ (ChatCenter.clean_offline_users us now timeout).map Prod.fst
      ↔ ∃ t, (v, t) ∈ us ∧ now - t ≤ timeout := by
  rw [clean_eq_filter us now timeout h]
  constructor
  · intro hv
    obtain ⟨p, hp, hpe⟩ := List.mem_map.mp hv
    obtain ⟨hpu, hfr⟩ := List.mem_filter.mp hp
    refine ⟨p.2, ?_, by simpa using hfr⟩
    rw [← hpe]
    exact hpu
  · rintro ⟨t, htm, hfr⟩
    exact List.mem_map.mpr
      ⟨(v, t), List.mem_filter.mpr ⟨htm, by simpa using hfr⟩, rfl⟩

theorem trim_eq_drop (l : List Message) (m : Int) (hm : 0 < m) :
    (if (l.length : Int) > m then pySliceFrom l (-m) else l)
      = l.drop (l.length - m.toNat) := by
  unfold pySliceFrom
  by_cases hgt : (l.length : Int) > m
  · rw [if_pos hgt, if_pos (by omega : -m < 0)]
    congr 1
    omega
  · rw [if_neg hgt]
    have h0 : l.length - m.toNat = 0 := by omega
    rw [h0, List.drop_zero]

/-! ### Component lemmas for a successful `send_message` -/

theorem send_message_resp (s : ChatState) (u c : String) (ms ns : Int)
    (tstr : String) (ok : Bool) (ty : String) (hu : u ≠ "") (hc : c ≠ "") :
    (ChatCenter.send_message s u c ms ns tstr ok ty).1
      = { code := 0, message := "发送成功",
          data := some (.msg { id := ms, username := u, content := c,
                               time := tstr, type := ty }) } := by
  unfold ChatCenter.send_message
  rw [if_neg (not_or.mpr ⟨hu, hc⟩)]

theorem send_message_messages (s : ChatState) (u c : String) (ms ns : Int)
    (tstr : String) (ok : Bool) (ty : String) (hpos : 0 < s.max_messages)
    (hu : u ≠ "") (hc : c ≠ "") :
    (ChatCenter.send_message s u c ms ns tstr ok ty).2.messages
      = (s.messages ++ [({ id := ms, username := u, content := c,
                           time := tstr, type := ty } : Message)]).drop
          (s.messages.length + 1 - s.max_messages.toNat) := by
  unfold ChatCenter.send_message
  rw [if_neg (not_or.mpr ⟨hu, hc⟩)]
  dsimp only
  rw [trim_eq_drop _ _ hpos]
  simp [List.length_append]

theorem send_message_fields (s : ChatState) (u c : String) (ms ns : Int)
    (tstr : String) (ok : Bool) (ty : String) (hu : u ≠ "") (hc : c ≠ "") :
    (ChatCenter.send_message s u c ms ns tstr ok ty).2.online_users
        = ChatCenter.update_user_online s.online_users u ns
      ∧ (ChatCenter.send_message s u c ms ns tstr ok ty).2.max_messages
        = s.max_messages
      ∧ (ChatCenter.send_message s u c ms ns tstr ok ty).2.online_timeout
        = s.online_timeout := by
  unfold ChatCenter.send_message
  rw [if_neg (not_or.mpr ⟨hu, hc⟩)]
  exact ⟨rfl, rfl, rfl⟩

theorem send_message_file (s : ChatState) (u c : String) (ms ns : Int)
    (tstr : String) (ok : Bool) (ty : String) (hu : u ≠ "") (hc : c ≠ "") :
    (ChatCenter.send_message s u c ms ns tstr ok ty).2.chat_file
      = ChatCenter.save_messages
          ((ChatCenter.send_message s u c ms ns tstr ok ty).2.messages)
          s.chat_file ok := by
  unfold ChatCenter.send_message
  rw [if_neg (not_or.mpr ⟨hu, hc⟩)]

/-! ### The bounded message log under a sequence of successful posts -/

theorem drop_append_assoc {α : Type} (a b : List α) (d e : Nat)
    (hd : d ≤ a.length) :
    (a.drop d ++ b).drop e = (a ++ b).drop (d + e) := by
  have h1 : (a ++ b).drop d = a.drop d ++ b := by
    rw [List.drop_append_eq_append_drop, Nat.sub_eq_zero_of_le hd,
      List.drop_zero]
  rw [← List.drop_drop, h1]

theorem post_step_messages (s : ChatState) (i : PostInput)
    (hpos : 0 < s.max_messages) (hu : i.username ≠ "") (hc : i.content ≠ "") :
    (post_step s i).messages
      = (s.messages ++ [mkMessage i]).drop
          (s.messages.length + 1 - s.max_messages.toNat) :=
  send_message_messages s i.username i.content i.nowMs i.nowS i.timeStr
    i.saveOk i.ty hpos hu hc

theorem post_step_max (s : ChatState) (i : PostInput)
    (hu : i.username ≠ "") (hc : i.content ≠ "") :
    (post_step s i).max_messages = s.max_messages :=
  (send_message_fields s i.username i.content i.nowMs i.nowS i.timeStr
    i.saveOk i.ty hu hc).2.1

theorem run_posts_spec (l : List PostInput) : ∀ s : ChatState,
    0 < s.max_messages →
    s.messages.length ≤ s.max_messages.toNat →
    (∀ i ∈ l, i.username ≠ "" ∧ i.content ≠ "") →
    (run_posts s l).messages
        = (s.messages ++ l.map mkMessage).drop
            (s.messages.length + l.length - s.max_messages.toNat)
      ∧ (run_posts s l).max_messages = s.max_messages := by
  induction l with
  | nil =>
    intro s _ hlen _
    constructor
    · simp only [run_posts, List.foldl_nil, List.map_nil, List.append_nil,
        List.length_nil, Nat.add_zero]
      rw [show s.messages.length - s.max_messages.toNat = 0 by omega,
        List.drop_zero]
    · rfl
  | cons i l ih =>
    intro s hpos hlen hvalid
    have hi := hvalid i (List.mem_cons_self i l)
    have hmax : (post_step s i).max_messages = s.max_messages :=
      post_step_max s i hi.1 hi.2
    have hstep : (post_step s i).messages
        = (s.messages ++ [mkMessage i]).drop
            (s.messages.length + 1 - s.max_messages.toNat) :=
      post_step_messages s i hpos hi.1 hi.2
    have hlen' : (post_step s i).messages.length
        ≤ (post_step s i).max_messages.toNat := by
      rw [hstep, hmax, List.length_drop, List.length_append]
      simp only [List.length_singleton]
      omega
    obtain ⟨h1, h2⟩ := ih (post_step s i) (by rw [hmax]; exact hpos) hlen'
      (fun j hj => hvalid j (List.mem_cons_of_mem i hj))
    have hrun : run_posts s (i :: l) = run_posts (post_step s i) l := rfl
    refine ⟨?_, by rw [hrun, h2, hmax]⟩
    rw [hrun, h1, hstep, hmax]
    rw [List.length_drop, List.length_append, List.length_singleton]
    rw [drop_append_assoc _ _ _ _
      (by rw [List.length_append, List.length_singleton]; omega)]
    rw [show s.messages ++ (List.map mkMessage (i :: l))
        = (s.messages ++ [mkMessage i]) ++ l.map mkMessage by simp]
    congr 1
    rw [List.length_cons]
    omega

/-! ### Claim C1 -/

/-- C1, counterexample: the claim quantifies over every configured
integer `max_messages`, but `init_plugin` accepts any non-zero integer,
and with the configured value `-1` a single successful `PostMessage`
(`N = 1 > -1 = max_messages`) leaves a message list whose length `0`
strictly exceeds `max_messages`, so neither "returns exactly the last
`max_messages` posted messages" nor "the length never exceeds
`max_messages`" holds. -/
theorem c1_negative_max_counterexample :
    (ChatCenter.init_plugin (some (-1)) none .missing).max_messages = -1
      ∧ (ChatCenter.send_message (ChatCenter.init_plugin (some (-1)) none .missing)
          "alice" "hi" 1000 1 "2024-01-01 00:00:00" true).1.code = 0
      ∧ ((((ChatCenter.send_message (ChatCenter.init_plugin (some (-1)) none .missing)
          "alice" "hi" 1000 1 "2024-01-01 00:00:00" true).2.messages).length : Int)
          > (ChatCenter.init_plugin (some (-1)) none .missing).max_messages) := by
  decide

/-- C1 (amended to positive configured `max_messages`): for every state
whose `max_messages` is positive and whose message list respects the
bound, after every sequence of `N` successful `PostMessage` calls with
`N > max_messages`, `ListMessages` returns exactly the last
`max_messages` posted messages in their original relative order, and at
no intermediate point does the message list's length exceed
`max_messages`. -/
theorem c1_bounded_log_keeps_last_max (s : ChatState) (l : List PostInput)
    (hpos : 0 < s.max_messages)
    (hlen : s.messages.length ≤ s.max_messages.toNat)
    (hvalid : ∀ i ∈ l, i.username ≠ "" ∧ i.content ≠ "")
    (hN : s.max_messages.toNat < l.length) :
    ChatCenter.get_messages (run_posts s l)
        = { code := 0, message := "操作成功",
            data := some (.msgs ((l.map mkMessage).drop
                      (l.length - s.max_messages.toNat))) }
      ∧ ∀ n, (run_posts s (l.take n)).messages.length
          ≤ s.max_messages.toNat := by
  constructor
  · have hmain := (run_posts_spec l s hpos hlen hvalid).1
    have hmsgs : (run_posts s l).messages
        = (l.map mkMessage).drop (l.length - s.max_messages.toNat) := by
      rw [hmain, List.drop_append_eq_append_drop,
        List.drop_eq_nil_of_le (by omega),
        show s.messages.length + l.length - s.max_messages.toNat
            - s.messages.length = l.length - s.max_messages.toNat by omega,
        List.nil_append]
    unfold ChatCenter.get_messages
    rw [hmsgs]
  · intro n
    have h := (run_posts_spec (l.take n) s hpos hlen
      (fun j hj => hvalid j (List.mem_of_mem_take hj))).1
    rw [h, List.length_drop, List.length_append, List.length_map]
    omega

/-- C1, witness: the spec's concrete scenario: with `max_messages = 2`,
posting "a", "b", "c" leaves exactly the messages "b", "c" in order, and
the list length stays within the bound throughout. -/
theorem c1_bounded_log_keeps_last_max_instance :
    ChatCenter.get_messages (run_posts
        (ChatCenter.init_plugin (some 2) none .missing)
        [⟨"alice", "a", "text", 1, 1, "t1", true⟩,
         ⟨"alice", "b", "text", 2, 2, "t2", true⟩,
         ⟨"alice", "c", "text", 3, 3, "t3", true⟩])
      = { code := 0, message := "操作成功",
          data := some (.msgs
            [{ id := 2, username := "alice", content := "b",
               time := "t2", type := "text" },
             { id := 3, username := "alice", content := "c",
               time := "t3", type := "text" }]) }
    ∧ (run_posts (ChatCenter.init_plugin (some 2) none .missing)
        ([⟨"alice", "a", "text", 1, 1, "t1", true⟩,
          ⟨"alice", "b", "text", 2, 2, "t2", true⟩,
          ⟨"alice", "c", "text", 3, 3, "t3", true⟩].take 3)).messages.length
        ≤ (ChatCenter.init_plugin (some 2) none .missing).max_messages.toNat := by
  have h := c1_bounded_log_keeps_last_max
    (ChatCenter.init_plugin (some 2) none .missing)
    [⟨"alice", "a", "text", 1, 1, "t1", true⟩,
     ⟨"alice", "b", "text", 2, 2, "t2", true⟩,
     ⟨"alice", "c", "text", 3, 3, "t3", true⟩]
    (by decide) (by decide) (by decide) (by decide)
  exact ⟨h.1, h.2 3⟩

/-! ### Claim C2 -/

/-- C2: `PostMessage` with an empty username or empty content returns the
validation-failure envelope (code 1 with a message and no data) and
returns the state unchanged: the message list, the presence map and the
backing file are exactly as before the call. -/
theorem c2_empty_input_validation (s : ChatState) (u c : String)
    (ms ns : Int) (tstr : String) (ok : Bool) (ty : String)
    (h : u = "" ∨ c = "") :
    ChatCenter.send_message s u c ms ns tstr ok ty
      = ({ code := 1, message := "用户名和消息内容不能为空！", data := none }, s) := by
  unfold ChatCenter.send_message
  rw [if_pos h]

/-- C2, witness: posting with an empty username on a freshly initialized
state fails with code 1 and leaves the state unchanged. -/
theorem c2_empty_input_validation_instance :
    ChatCenter.send_message (ChatCenter.init_plugin none none .missing)
        "" "hi" 1000 1 "2024-01-01 00:00:00" true "text"
      = ({ code := 1, message := "用户名和消息内容不能为空！", data := none },
         ChatCenter.init_plugin none none .missing) :=
  c2_empty_input_validation _ "" "hi" 1000 1 "2024-01-01 00:00:00" true
    "text" (Or.inl rfl)

/-! ### Claim C4 -/

/-- C4: persistence round-trip: saving any in-memory message list to the
backing file (a successful write) and then reloading from that file
yields a message list equal in content and order to the saved one. -/
theorem c4_save_load_round_trip (msgs : List Message) (f : FileState) :
    ChatCenter.load_messages (ChatCenter.save_messages msgs f true) = msgs :=
  rfl

/-! ### Claim C7 -/

/-- C7: `ClearMessages` succeeds with code 0; afterwards `ListMessages`
returns the empty sequence, a reload from the persisted file also yields
the empty sequence, and the presence map is unchanged. -/
theorem c7_clear_messages (s : ChatState) :
    (ChatCenter.clear_messages s true).1
        = { code := 0, message := "清空成功", data := none }
      ∧ ChatCenter.get_messages (ChatCenter.clear_messages s true).2
        = { code := 0, message := "操作成功", data := some (.msgs []) }
      ∧ ChatCenter.load_messages
          (ChatCenter.clear_messages s true).2.chat_file = []
      ∧ (ChatCenter.clear_messages s true).2.online_users = s.online_users :=
  ⟨rfl, rfl, rfl, rfl⟩

/-! ### Claim C8 -/

/-- C8: `Heartbeat` with an empty username fails with code 1 and changes
nothing; with a non-empty username it succeeds, sets exactly that
username's presence entry to the current time, and leaves the message
list, the backing file (no persistence write) and every other user's
presence entries unchanged. -/
theorem c8_heartbeat_frame (s : ChatState) (u : String) (now : Int)
    (hu : u ≠ "") :
    ChatCenter.user_heartbeat s "" now
        = ({ code := 1, message := "用户名不能为空！", data := none }, s)
      ∧ (ChatCenter.user_heartbeat s u now).1
        = { code := 0, message := "操作成功", data := none }
      ∧ (ChatCenter.user_heartbeat s u now).2.messages = s.messages
      ∧ (ChatCenter.user_heartbeat s u now).2.chat_file = s.chat_file
      ∧ (u, now) ∈ (ChatCenter.user_heartbeat s u now).2.online_users
      ∧ (∀ p ∈ (ChatCenter.user_heartbeat s u now).2.online_users,
          p.1 = u → p = (u, now))
      ∧ ∀ v, v ≠ u →
          ((ChatCenter.user_heartbeat s u now).2.online_users.filter
              (fun p => p.1 == v))
            = s.online_users.filter (fun p => p.1 == v) := by
  have hs : (ChatCenter.user_heartbeat s u now).2
      = { s with online_users := dictInsert s.online_users u now } := by
    unfold ChatCenter.user_heartbeat
    rw [if_neg hu]
    unfold ChatCenter.update_user_online
    rw [if_neg hu]
  refine ⟨rfl, ?_, ?_, ?_, ?_, ?_, ?_⟩
  · unfold ChatCenter.user_heartbeat
    rw [if_neg hu]
  · rw [hs]
  · rw [hs]
  · rw [hs]
    exact dictInsert_mem_self s.online_users u now
  · rw [hs]
    exact dictInsert_key_eq s.online_users u now
  · intro v hv
    rw [hs]
    exact dictInsert_filter_ne s.online_users u v now hv

/-- C8, witness: a heartbeat for "alice" at time 50 on a fresh state
succeeds and records the presence entry ("alice", 50). -/
theorem c8_heartbeat_frame_instance :
    (ChatCenter.user_heartbeat (ChatCenter.init_plugin none none .missing)
        "alice" 50).1
      = { code := 0, message := "操作成功", data := none }
    ∧ ("alice", (50 : Int)) ∈
        (ChatCenter.user_heartbeat (ChatCenter.init_plugin none none .missing)
          "alice" 50).2.online_users := by
  have h := c8_heartbeat_frame (ChatCenter.init_plugin none none .missing)
    "alice" 50 (by decide)
  exact ⟨h.2.1, h.2.2.2.2.1⟩

/-! ### Claim C6 -/

/-- C6: persistence failures are recovered locally: loading from a
missing or unparseable backing file initializes the empty message list
(also through `init_plugin`), and on a save failure the enclosing
`PostMessage` or `ClearMessages` still returns success with exactly the
in-memory result a successful save would have produced, while the
backing file keeps its previous contents. -/
theorem c6_persistence_failures_recovered (s : ChatState) (u c : String)
    (ms ns : Int) (tstr : String) (ty : String) (cm ct : Option Int)
    (hu : u ≠ "") (hc : c ≠ "") :
    ChatCenter.load_messages .missing = []
      ∧ ChatCenter.load_messages .corrupt = []
      ∧ (ChatCenter.init_plugin cm ct .missing).messages = []
      ∧ (ChatCenter.init_plugin cm ct .corrupt).messages = []
      ∧ (ChatCenter.send_message s u c ms ns tstr false ty).1.code = 0
      ∧ (ChatCenter.send_message s u c ms ns tstr false ty).1
        = (ChatCenter.send_message s u c ms ns tstr true ty).1
      ∧ (ChatCenter.send_message s u c ms ns tstr false ty).2.messages
        = (ChatCenter.send_message s u c ms ns tstr true ty).2.messages
      ∧ (ChatCenter.send_message s u c ms ns tstr false ty).2.chat_file
        = s.chat_file
      ∧ (ChatCenter.clear_messages s false).1.code = 0
      ∧ (ChatCenter.clear_messages s false).2.messages = []
      ∧ (ChatCenter.clear_messages s false).2.chat_file = s.chat_file := by
  have hneg := not_or.mpr ⟨hu, hc⟩
  refine ⟨rfl, rfl, rfl, rfl, ?_, ?_, ?_, ?_, rfl, rfl, rfl⟩ <;>
    · unfold ChatCenter.send_message
      simp only [if_neg hneg]
      try rfl

/-- C6, witness: a post whose file write fails still succeeds with
code 0, and the missing backing file is untouched. -/
theorem c6_persistence_failures_recovered_instance :
    (ChatCenter.send_message (ChatCenter.init_plugin none none .missing)
        "alice" "hi" 1 1 "t" false "text").1.code = 0
    ∧ (ChatCenter.send_message (ChatCenter.init_plugin none none .missing)
        "alice" "hi" 1 1 "t" false "text").2.chat_file
      = (ChatCenter.init_plugin none none .missing).chat_file := by
  have h := c6_persistence_failures_recovered
    (ChatCenter.init_plugin none none .missing) "alice" "hi" 1 1 "t" "text"
    none none (by decide) (by decide)
  exact ⟨h.2.2.2.2.1, h.2.2.2.2.2.2.2.1⟩

/-! ### Claim C10 -/

theorem pySliceFrom_subset {α : Type} (l : List α) (k : Int) :
    pySliceFrom l k ⊆ l := by
  unfold pySliceFrom
  split
  · exact List.drop_subset _ _
  · exact List.drop_subset _ _

theorem drop_concat_getLast (l : List Message) (x : Message) (k : Nat)
    (hk : k ≤ l.length) :
    ((l ++ [x]).drop k).getLast? = some x := by
  rw [List.drop_append_eq_append_drop, Nat.sub_eq_zero_of_le hk,
    List.drop_zero, List.getLast?_concat]

/-- C10: no trimming happens before validation: any non-empty username
and content — including whitespace-only strings — make `PostMessage`
succeed with code 0, append a message carrying those exact strings as
its last entry, and record presence for that exact username. -/
theorem c10_whitespace_accepted (s : ChatState) (u c : String)
    (ms ns : Int) (tstr : String) (ok : Bool) (ty : String)
    (hu : u ≠ "") (hc : c ≠ "") (hpos : 0 < s.max_messages) :
    (ChatCenter.send_message s u c ms ns tstr ok ty).1
      = { code := 0, message := "发送成功",
          data := some (.msg { id := ms, username := u, content := c,
                               time := tstr, type := ty }) }
    ∧ ((ChatCenter.send_message s u c ms ns tstr ok ty).2.messages).getLast?
      = some { id := ms, username := u, content := c,
               time := tstr, type := ty }
    ∧ (u, ns) ∈ (ChatCenter.send_message s u c ms ns tstr ok ty).2.online_users := by
  refine ⟨send_message_resp s u c ms ns tstr ok ty hu hc, ?_, ?_⟩
  · rw [send_message_messages s u c ms ns tstr ok ty hpos hu hc]
    exact drop_concat_getLast _ _ _ (by omega)
  · rw [(send_message_fields s u c ms ns tstr ok ty hu hc).1]
    unfold ChatCenter.update_user_online
    rw [if_neg hu]
    exact dictInsert_mem_self _ _ _

/-- C10, witness: a whitespace-only username and content are accepted
verbatim on a fresh state. -/
theorem c10_whitespace_accepted_instance :
    (ChatCenter.send_message (ChatCenter.init_plugin none none .missing)
        " " "  " 7 7 "t" true "text").1
      = { code := 0, message := "发送成功",
          data := some (.msg { id := 7, username := " ", content := "  ",
                               time := "t", type := "text" }) }
    ∧ (" ", (7 : Int)) ∈
        (ChatCenter.send_message (ChatCenter.init_plugin none none .missing)
          " " "  " 7 7 "t" true "text").2.online_users := by
  have h := c10_whitespace_accepted (ChatCenter.init_plugin none none .missing)
    " " "  " 7 7 "t" true "text" (by decide) (by decide) (by decide)
  exact ⟨h.1, h.2.2⟩

/-! ### Claim C9 -/

/-- C9, counterexample: the `type` argument is stored without any
validation, so a post with `type = "weird"` stores a message whose type
is neither `"text"` nor `"system"` — refuting the claimed invariant that
every stored message has type in that set. -/
theorem c9_unvalidated_type_counterexample :
    (ChatCenter.send_message (ChatCenter.init_plugin none none .missing)
        "alice" "hi" 1 1 "2024-01-01 00:00:00" true "weird").2.messages
      = [{ id := 1, username := "alice", content := "hi",
           time := "2024-01-01 00:00:00", type := "weird" }]
    ∧ ¬("weird" = "text" ∨ "weird" = "system") := by
  decide

/-- C9 (amended): a message created by `PostMessage` without an explicit
type argument has type `"text"`, and in general the caller-supplied type
is stored verbatim; the code does not restrict it, so the invariant
"every stored message has type `"text"` or `"system"`" holds exactly
for lists built from posts whose type argument lies in that set. -/
theorem c9_type_default_text (s : ChatState) (u c : String)
    (ms ns : Int) (tstr : String) (ok : Bool)
    (hu : u ≠ "") (hc : c ≠ "") :
    (ChatCenter.send_message s u c ms ns tstr ok).1.data
      = some (.msg { id := ms, username := u, content := c,
                     time := tstr, type := "text" })
    ∧ (∀ ty, (ChatCenter.send_message s u c ms ns tstr ok ty).1.data
      = some (.msg { id := ms, username := u, content := c,
                     time := tstr, type := ty }))
    ∧ ∀ ty, (ty = "text" ∨ ty = "system") →
        (∀ m ∈ s.messages, m.type = "text" ∨ m.type = "system") →
        ∀ m ∈ (ChatCenter.send_message s u c ms ns tstr ok ty).2.messages,
          m.type = "text" ∨ m.type = "system" := by
  have hneg := not_or.mpr ⟨hu, hc⟩
  refine ⟨by rw [send_message_resp s u c ms ns tstr ok "text" hu hc],
    fun ty => by rw [send_message_resp s u c ms ns tstr ok ty hu hc], ?_⟩
  intro ty hty hall m hm
  have hsub : m ∈ s.messages ++ [({ id := ms, username := u, content := c,
                                    time := tstr, type := ty } : Message)] := by
    revert hm
    unfold ChatCenter.send_message
    simp only [if_neg hneg]
    intro hm
    split at hm
    · exact pySliceFrom_subset _ _ hm
    · exact hm
  rcases List.mem_append.mp hsub with h | h
  · exact hall m h
  · rw [List.mem_singleton.mp h]
    exact hty

/-- C9, witness: a post without an explicit type argument stores a
message of type `"text"`. -/
theorem c9_type_default_text_instance :
    (ChatCenter.send_message (ChatCenter.init_plugin none none .missing)
        "alice" "hi" 1 1 "t" true).1.data
      = some (.msg { id := 1, username := "alice", content := "hi",
                     time := "t", type := "text" }) :=
  (c9_type_default_text (ChatCenter.init_plugin none none .missing)
    "alice" "hi" 1 1 "t" true (by decide) (by decide)).1

/-! ### Claim C3 -/

theorem user_heartbeat_state (s : ChatState) (u : String) (now : Int)
    (hu : u ≠ "") :
    (ChatCenter.user_heartbeat s u now).2
      = { s with online_users := dictInsert s.online_users u now } := by
  unfold ChatCenter.user_heartbeat
  rw [if_neg hu]
  unfold ChatCenter.update_user_online
  rw [if_neg hu]

/-- C3: `ListOnlineUsers` first removes every presence entry whose age
exceeds `online_timeout` and then returns exactly the usernames of the
remaining entries; a username is listed iff its entry is at most
`online_timeout` old; `Heartbeat(u)` followed by `ListOnlineUsers` at
any time `now2` lists `u` iff `now2 - now ≤ online_timeout`, so with a
non-negative timeout `u` is included immediately after the heartbeat and
is absent once more than `online_timeout` seconds have elapsed without a
further heartbeat. -/
theorem c3_online_expiry (s : ChatState) (now : Int) (u : String)
    (hnodup : (s.online_users.map Prod.fst).Nodup) (hu : u ≠ "") :
    (ChatCenter.get_online_users s now).2.online_users
        = s.online_users.filter
            (fun p => decide (now - p.2 ≤ s.online_timeout))
      ∧ (ChatCenter.get_online_users s now).1
        = { code := 0, message := "操作成功",
            data := some (.users
              ((ChatCenter.get_online_users s now).2.online_users.map
                Prod.fst)) }
      ∧ (∀ v, v ∈ (ChatCenter.get_online_users s now).2.online_users.map
              Prod.fst
          ↔ ∃ t, (v, t) ∈ s.online_users ∧ now - t ≤ s.online_timeout)
      ∧ (∀ now2,
          u ∈ ((ChatCenter.get_online_users
                  (ChatCenter.user_heartbeat s u now).2 now2).2.online_users.map
                Prod.fst)
            ↔ now2 - now ≤ s.online_timeout)
      ∧ (0 ≤ s.online_timeout →
          u ∈ ((ChatCenter.get_online_users
                  (ChatCenter.user_heartbeat s u now).2 now).2.online_users.map
                Prod.fst)) := by
  have hclean : (ChatCenter.get_online_users s now).2.online_users
      = ChatCenter.clean_offline_users s.online_users now s.online_timeout :=
    rfl
  have h4 : ∀ now2,
      u ∈ ((ChatCenter.get_online_users
              (ChatCenter.user_heartbeat s u now).2 now2).2.online_users.map
            Prod.fst)
        ↔ now2 - now ≤ s.online_timeout := by
    intro now2
    have hs1 := user_heartbeat_state s u now hu
    have heq : (ChatCenter.get_online_users
        (ChatCenter.user_heartbeat s u now).2 now2).2.online_users
          = ChatCenter.clean_offline_users (dictInsert s.online_users u now)
              now2 s.online_timeout := by
      rw [hs1]
      rfl
    rw [heq]
    have hnodup1 : ((dictInsert s.online_users u now).map Prod.fst).Nodup :=
      dictInsert_keys_nodup s.online_users u now hnodup
    rw [mem_clean_iff _ _ _ hnodup1 u]
    constructor
    · rintro ⟨t, htm, hle⟩
      have hkey := dictInsert_key_eq s.online_users u now (u, t) htm rfl
      have ht : t = now := by
        simpa using congrArg Prod.snd hkey
      exact ht ▸ hle
    · intro hle
      exact ⟨now, dictInsert_mem_self _ _ _, hle⟩
  refine ⟨?_, rfl, ?_, h4, ?_⟩
  · rw [hclean]
    exact clean_eq_filter s.online_users now s.online_timeout hnodup
  · intro v
    rw [hclean]
    exact mem_clean_iff s.online_users now s.online_timeout hnodup v
  · intro h0
    exact (h4 now).mpr (by omega)

/-- C3, witness: a heartbeat for "alice" at time 100 on a fresh state
makes the online-user list computed at time 100 include "alice". -/
theorem c3_online_expiry_instance :
    "alice" ∈ ((ChatCenter.get_online_users
        (ChatCenter.user_heartbeat (ChatCenter.init_plugin none none .missing)
          "alice" 100).2 100).2.online_users.map Prod.fst) :=
  (c3_online_expiry (ChatCenter.init_plugin none none .missing) 100 "alice"
    (by decide) (by decide)).2.2.2.2 (by decide)

/-! ### Claim C5 -/

/-- C5: `ChatCenter` and `ChatroomEnhanced` implement the same Chat
Store behaviour: for each operation, every input and every starting
state, both produce the same response envelope and the same resulting
state; the two modules differ only in import-path probing, logging and
metadata such as the data file name, none of which enter this state. -/
theorem c5_modules_equivalent :
    (∀ s : ChatState,
        ChatCenter.get_messages s = ChatroomEnhanced.get_messages s)
    ∧ (∀ (s : ChatState) (u c : String) (ms ns : Int) (tstr : String)
        (ok : Bool) (ty : String),
        ChatCenter.send_message s u c ms ns tstr ok ty
          = ChatroomEnhanced.send_message s u c ms ns tstr ok ty)
    ∧ (∀ (s : ChatState) (now : Int),
        ChatCenter.get_online_users s now
          = ChatroomEnhanced.get_online_users s now)
    ∧ (∀ (s : ChatState) (u : String) (now : Int),
        ChatCenter.user_heartbeat s u now
          = ChatroomEnhanced.user_heartbeat s u now)
    ∧ (∀ (s : ChatState) (ok : Bool),
        ChatCenter.clear_messages s ok = ChatroomEnhanced.clear_messages s ok)
    ∧ (∀ (cm ct : Option Int) (f : FileState),
        ChatCenter.init_plugin cm ct f = ChatroomEnhanced.init_plugin cm ct f)
    ∧ (∀ f, ChatCenter.load_messages f = ChatroomEnhanced.load_messages f)
    ∧ (∀ (msgs : List Message) (f : FileState) (ok : Bool),
        ChatCenter.save_messages msgs f ok
          = ChatroomEnhanced.save_messages msgs f ok) :=
  ⟨fun _ => rfl, fun _ _ _ _ _ _ _ _ => rfl, fun _ _ => rfl,
   fun _ _ _ => rfl, fun _ _ => rfl, fun _ _ _ => rfl, fun _ => rfl,
   fun _ _ _ => rfl⟩
